import Mathlib

/-!
Verification of the admission-webhook validators and the CronTab controller.

Shallow embedding of:
* `image-validator.py` (namespace `ImageValidator`): the four validation
  rules, the per-container aggregation loop, the exempt-namespace
  short-circuit, and the envelope/decode error handling of `/validate`.
* `validate-pod.py` (namespace `PodValidator`): the exempt-namespace
  short-circuit and the runAsNonRoot loop.
* `crontab-controller.py` (namespace `CrontabController`): the watch-event
  handler and the CronJob creation it performs.

Python dict lookups `d.get(k, default)` become `Option.getD`; `d[k]`
(which raises `KeyError`) becomes `Except`-valued extraction.  Python
string `split` and the `in` containment test are modelled by `pySplit`
and `pyContains` below, which operate on the character list of a string
exactly as Python's `str.split(sep)` and `sep in s` do.
-/

/-- Python `s.split(sep)` on a list of characters: always returns a
non-empty list; `"".split(sep) == [""]`. -/
def splitChar (sep : Char) : List Char → List (List Char)
  | [] => [[]]
  | c :: cs =>
    let r := splitChar sep cs
    if c = sep then [] :: r
    else
      match r with
      | [] => [[c]]
      | h :: t => (c :: h) :: t

/-- Python `s.split(sep)` for a string. -/
def pySplit (s : String) (sep : Char) : List String :=
  (splitChar sep s.data).map (fun l => ⟨l⟩)

/-- Python `c in s` for a character and a string. -/
def pyContains (s : String) (c : Char) : Bool :=
  s.data.contains c

/-- Python truthiness of an optional string value (`None` and `""` are falsy). -/
def pyTruthy : Option String → Bool
  | none => false
  | some s => s != ""

/-- Python `repr` of a list of strings, as interpolated by an f-string:
`['a', 'b']`. -/
def pyListRepr (l : List String) : String :=
  "[" ++ String.intercalate ", " (l.map (fun s => "\x27" ++ s ++ "\x27")) ++ "]"

/-- Python `d[k]` on an optional field: raises `KeyError k` when absent. -/
def keyGet {α : Type} (o : Option α) (key : String) : Except String α :=
  match o with
  | some a => Except.ok a
  | none => Except.error key

/-! ## Shared pod data model -/

/-- One of the `limits` / `requests` mappings of a container's resources. -/
structure ResourceMap where
  cpu : Option String
  memory : Option String
deriving Repr, DecidableEq

/-- The `resources` mapping of a container. -/
structure Resources where
  limits : Option ResourceMap
  requests : Option ResourceMap
deriving Repr, DecidableEq

/-- The `securityContext` mapping of a container. -/
structure SecurityContext where
  runAsNonRoot : Option Bool
  allowPrivilegeEscalation : Option Bool
  readOnlyRootFilesystem : Option Bool
deriving Repr, DecidableEq

/-- A container entry of a pod spec; every field may be absent. -/
structure Container where
  name : Option String
  image : Option String
  resources : Option Resources
  securityContext : Option SecurityContext
deriving Repr, DecidableEq

/-- The `response` part of an AdmissionReview answer. -/
structure AdmissionResponse where
  uid : String
  allowed : Bool
  message : String
deriving Repr, DecidableEq

namespace ImageValidator

def APPROVED_REGISTRIES : List String :=
  ["docker.io", "gcr.io", "k8s.gcr.io", "quay.io", "registry.k8s.io", "ghcr.io"]

def BLOCKED_TAGS : List String := ["latest"]

/-- `validate_image_registry` of image-validator.py. -/
def validate_image_registry (image container_name : String) : Bool × String :=
  if image = "" then
    (false, "Container \x27" ++ container_name ++ "\x27: Image is required")
  else
    let parts := pySplit image '/'
    if parts.length > 1 then
      let registry := parts.headD ""
      if pyContains registry '.' || pyContains registry ':' then
        if !(APPROVED_REGISTRIES.contains registry) then
          (false, "Container \x27" ++ container_name ++ "\x27: Registry \x27" ++
            registry ++ "\x27 not in approved list: " ++ pyListRepr APPROVED_REGISTRIES)
        else (true, "")
      else (true, "")
    else (true, "")

/-- `validate_image_tag` of image-validator.py.  The first component is
`tag_blocked`: `true` means the rule fails. -/
def validate_image_tag (image container_name : String) : Bool × String :=
  if image = "" then
    (false, "Container \x27" ++ container_name ++ "\x27: Image is required")
  else
    let tag := "latest"
    let tag := if pyContains image ':' then (pySplit image ':').getLastD tag else tag
    if BLOCKED_TAGS.contains tag then
      (true, "Container \x27" ++ container_name ++ "\x27: Tag \x27" ++ tag ++
        "\x27 is blocked. Use specific version tags.")
    else
      (false, "")

/-- `validate_resources` of image-validator.py. -/
def validate_resources (container : Container) (container_name : String) : Bool × String :=
  let resources := container.resources.getD ⟨none, none⟩
  let errors : List String := []
  let limits := resources.limits.getD ⟨none, none⟩
  let errors := if pyTruthy limits.cpu then errors else errors ++ ["CPU limits"]
  let errors := if pyTruthy limits.memory then errors else errors ++ ["memory limits"]
  let requests := resources.requests.getD ⟨none, none⟩
  let errors := if pyTruthy requests.cpu then errors else errors ++ ["CPU requests"]
  let errors := if pyTruthy requests.memory then errors else errors ++ ["memory requests"]
  if !errors.isEmpty then
    (false, "Container \x27" ++ container_name ++ "\x27: Missing " ++
      String.intercalate ", " errors)
  else (true, "")

/-- `validate_security_context` of image-validator.py. -/
def validate_security_context (container : Container) (container_name : String) : Bool × String :=
  let security_context := container.securityContext.getD ⟨none, none, none⟩
  let errors : List String := []
  let errors := if !(security_context.runAsNonRoot.getD false) then
    errors ++ ["runAsNonRoot=true"] else errors
  let errors := if security_context.allowPrivilegeEscalation.getD true then
    errors ++ ["allowPrivilegeEscalation=false"] else errors
  let errors := if !(security_context.readOnlyRootFilesystem.getD false) then
    errors ++ ["readOnlyRootFilesystem=true"] else errors
  if !errors.isEmpty then
    (false, "Container \x27" ++ container_name ++ "\x27: Required " ++
      String.intercalate ", " errors)
  else (true, "")

/-- Body of the `for container in all_containers` loop of `validate`:
extends the accumulated `validation_errors` with the failures of one
container, in the rule order registry, tag, resources, security context. -/
def validateContainerStep (validation_errors : List String) (container : Container) :
    List String :=
  let container_name := container.name.getD "unknown"
  let image := container.image.getD ""
  let r := validate_image_registry image container_name
  let validation_errors := if r.1 then validation_errors else validation_errors ++ [r.2]
  let t := validate_image_tag image container_name
  let validation_errors := if t.1 then validation_errors ++ [t.2] else validation_errors
  let rs := validate_resources container container_name
  let validation_errors := if rs.1 then validation_errors else validation_errors ++ [rs.2]
  let s := validate_security_context container container_name
  let validation_errors := if s.1 then validation_errors else validation_errors ++ [s.2]
  validation_errors

/-- A structurally well-formed admission request, as read by `validate`
after envelope decoding succeeded. -/
structure AdmissionRequest where
  uid : String
  pod_namespace : String
  pod_name : String
  containers : List Container
  initContainers : List Container
deriving Repr, DecidableEq

/-- The `validation_errors` list accumulated by `validate` over
`all_containers = containers + init_containers` (regular containers first,
exactly as in the source). -/
def validation_errors (req : AdmissionRequest) : List String :=
  (req.containers ++ req.initContainers).foldl validateContainerStep []

/-- The core of the `/validate` handler of image-validator.py on a decoded
request: exempt-namespace short-circuit, then the aggregation loop. -/
def validate (req : AdmissionRequest) : AdmissionResponse :=
  if req.pod_namespace = "image-validator-demo" then
    { uid := req.uid, allowed := true,
      message := "Skipped validation in image-validator-demo namespace" }
  else
    let errs := validation_errors req
    if !errs.isEmpty then
      { uid := req.uid, allowed := false, message := String.intercalate " | " errs }
    else
      { uid := req.uid, allowed := true, message := "All validations passed" }

/-! ### Raw request decoding (`req["request"]["uid"]` etc.) -/

/-- `request.object.metadata` as received (both keys optional, read with
`.get(key, "")`). -/
structure RawMetadata where
  name : Option String
  namespaceField : Option String
deriving Repr, DecidableEq

/-- `request.object.spec` as received (both lists read with `.get(key, [])`). -/
structure RawSpec where
  containers : Option (List Container)
  initContainers : Option (List Container)
deriving Repr, DecidableEq

/-- `request.object` as received: `metadata` is read with `.get` (optional),
`spec` with `[...]` (raises `KeyError` when absent). -/
structure RawObject where
  metadata : Option RawMetadata
  spec : Option RawSpec
deriving Repr, DecidableEq

/-- `request` as received: `uid` and `object` are read with `[...]`. -/
structure RawRequest where
  uid : Option String
  object : Option RawObject
deriving Repr, DecidableEq

/-- The decoded JSON body; `request` is tested with `"request" in req`. -/
structure RawBody where
  request : Option RawRequest
deriving Repr, DecidableEq

/-- The `try` block of the `/validate` handler after the `"request" in req`
check: field accesses that raise `KeyError` in Python surface as
`Except.error` with the Python exception text (`str(KeyError(k)) == "'k'"`). -/
def validateCore (r : RawRequest) : Except String AdmissionResponse := do
  let uid ← keyGet r.uid "\x27uid\x27"
  let object ← keyGet r.object "\x27object\x27"
  let pod_metadata := object.metadata.getD ⟨none, none⟩
  let pod_namespace := pod_metadata.namespaceField.getD ""
  let _pod_name := pod_metadata.name.getD ""
  if pod_namespace = "image-validator-demo" then
    return { uid := uid, allowed := true,
             message := "Skipped validation in image-validator-demo namespace" }
  let pod_spec ← keyGet object.spec "\x27spec\x27"
  let containers := pod_spec.containers.getD []
  let init_containers := pod_spec.initContainers.getD []
  let errs := (containers ++ init_containers).foldl validateContainerStep []
  if !errs.isEmpty then
    return { uid := uid, allowed := false, message := String.intercalate " | " errs }
  else
    return { uid := uid, allowed := true, message := "All validations passed" }

/-- `req.get("request", {}).get("uid", "")`, the best-effort uid recovery
of the exception handler. -/
def bestEffortUid : Option RawBody → String
  | none => ""
  | some b =>
    match b.request with
    | none => ""
    | some r => r.uid.getD ""

/-- The whole `/validate` handler of image-validator.py: `none` stands for
an empty / non-decodable body (`not req`); any exception raised inside the
`try` block is converted into a deny response carrying the best-effort uid. -/
def validateHandler (body : Option RawBody) : AdmissionResponse :=
  match body with
  | none => { uid := "", allowed := false, message := "Invalid request" }
  | some b =>
    match b.request with
    | none => { uid := "", allowed := false, message := "Invalid request" }
    | some r =>
      match validateCore r with
      | Except.ok resp => resp
      | Except.error e =>
        { uid := bestEffortUid body, allowed := false,
          message := "Validation error: " ++ e }

end ImageValidator

namespace PodValidator

/-- The admission request as read by validate-pod.py (no initContainers are
inspected). -/
structure AdmissionRequest where
  uid : String
  pod_namespace : String
  pod_name : String
  containers : List Container
deriving Repr, DecidableEq

/-- The `for c in containers` loop of validate-pod.py: starts from
`allowed=True, msg="Pod is valid"`, breaks at the first container whose
`securityContext.runAsNonRoot` (default `False`) is falsy; the failure
message reads `c["name"]`, which raises `KeyError` when absent. -/
def podLoop : List Container → Except String (Bool × String)
  | [] => Except.ok (true, "Pod is valid")
  | c :: rest =>
    let sc := c.securityContext.getD ⟨none, none, none⟩
    if !(sc.runAsNonRoot.getD false) then
      match c.name with
      | none => Except.error "\x27name\x27"
      | some n =>
        Except.ok (false, "Container \x27" ++ n ++ "\x27 must set runAsNonRoot=true")
    else
      podLoop rest

/-- The core of the `/validate` handler of validate-pod.py on a decoded
request: exempt-namespace short-circuit, then the runAsNonRoot loop. -/
def validate (req : AdmissionRequest) : Except String AdmissionResponse := do
  if req.pod_namespace = "webhook-demo" then
    return { uid := req.uid, allowed := true,
             message := "Skipped validation in webhook-demo namespace" }
  let (allowed, msg) ← podLoop req.containers
  return { uid := req.uid, allowed := allowed, message := msg }

end PodValidator

namespace CrontabController

/-- The single container of the derived CronJob body. -/
structure V1Container where
  name : String
  image : String
  args : List String
deriving Repr, DecidableEq

/-- The CronJob body assembled by `create_cronjob`. -/
structure CronJobBody where
  name : String
  schedule : String
  restart_policy : String
  containers : List V1Container
deriving Repr, DecidableEq

/-- One `create_namespaced_cron_job` invocation. -/
structure CreateCall where
  namespace_ : String
  body : CronJobBody
deriving Repr, DecidableEq

/-- `create_cronjob` of crontab-controller.py: the create call it issues
(API failures are caught and swallowed, so the call is always issued). -/
def create_cronjob (cron_name cron_expr msg : String) : CreateCall :=
  { namespace_ := "default",
    body :=
      { name := cron_name ++ "-job",
        schedule := cron_expr,
        restart_policy := "OnFailure",
        containers :=
          [{ name := "echo", image := "busybox",
             args := ["/bin/sh", "-c", "echo " ++ msg] }] } }

/-- The watched object's fields as read by the loop:
`cr["metadata"]["name"]`, `cr["spec"]["cronSpec"]`, `cr["spec"]["message"]`
(each raises `KeyError` when absent). -/
structure CRObject where
  name : Option String
  cronSpec : Option String
  message : Option String
deriving Repr, DecidableEq

/-- One watch event `{type, object}`. -/
structure WatchEvent where
  type : String
  object : CRObject
deriving Repr, DecidableEq

/-- The body of the `for event in w.stream(...)` loop for one event: the
three fields are read (and can raise) before the event type is inspected;
only an `ADDED` event issues a create call. -/
def processEvent (event : WatchEvent) : Except String (List CreateCall) := do
  let name ← keyGet event.object.name "\x27name\x27"
  let cronSpec ← keyGet event.object.cronSpec "\x27cronSpec\x27"
  let message ← keyGet event.object.message "\x27message\x27"
  if event.type = "ADDED" then
    return [create_cronjob name cronSpec message]
  else
    return []

/-- The watch loop over a finite prefix of the event stream: returns the
create calls issued and, when an event raised an uncaught `KeyError`, the
exception that terminated the loop (later events are never read). -/
def runLoop : List WatchEvent → List CreateCall × Option String
  | [] => ([], none)
  | e :: rest =>
    match processEvent e with
    | Except.error msg => ([], some msg)
    | Except.ok calls =>
      let (more, err) := runLoop rest
      (calls ++ more, err)

end CrontabController

/-! ## Aggregation lemmas for the image validator -/

namespace ImageValidator

/-- The failure messages one container contributes to `validation_errors`. -/
def containerErrors (c : Container) : List String :=
  validateContainerStep [] c

/-- The loop body only appends to the accumulated error list. -/
theorem validateContainerStep_append (errs : List String) (c : Container) :
    validateContainerStep errs c = errs ++ containerErrors c := by
  simp only [containerErrors, validateContainerStep]
  split_ifs <;> simp [List.append_assoc]

/-- The error lists of a container list, concatenated in order. -/
def collectErrors : List Container → List String
  | [] => []
  | c :: cs => containerErrors c ++ collectErrors cs

/-- The aggregation fold is the in-order concatenation of the
per-container error lists. -/
theorem foldl_step_eq (l : List Container) :
    ∀ errs : List String, l.foldl validateContainerStep errs = errs ++ collectErrors l := by
  induction l with
  | nil => intro errs; simp [collectErrors]
  | cons c cs ih =>
    intro errs
    rw [List.foldl_cons, validateContainerStep_append, ih, collectErrors,
      List.append_assoc]

/-- The four validation rules of the image validator. -/
inductive Rule
  | registry
  | tag
  | resources
  | securityContext
deriving Repr, DecidableEq

/-- `ruleFailsOn r c` holds when rule `r` makes the aggregation loop record
a failure for container `c`: the registry, resources and security rules
fail when their first component is `false`, the tag rule when `tag_blocked`
is `true`. -/
def ruleFailsOn (r : Rule) (c : Container) : Bool :=
  let container_name := c.name.getD "unknown"
  let image := c.image.getD ""
  match r with
  | Rule.registry => !(validate_image_registry image container_name).1
  | Rule.tag => (validate_image_tag image container_name).1
  | Rule.resources => !(validate_resources c container_name).1
  | Rule.securityContext => !(validate_security_context c container_name).1

theorem rule_forall_iff (p : Rule → Prop) :
    (∀ r : Rule, p r) ↔
      p Rule.registry ∧ p Rule.tag ∧ p Rule.resources ∧ p Rule.securityContext := by
  constructor
  · intro h; exact ⟨h _, h _, h _, h _⟩
  · rintro ⟨h1, h2, h3, h4⟩ r; cases r <;> assumption

/-- A container contributes no error exactly when no rule fails on it. -/
theorem containerErrors_eq_nil_iff (c : Container) :
    containerErrors c = [] ↔ ∀ r : Rule, ruleFailsOn r c = false := by
  rw [rule_forall_iff]
  simp only [ruleFailsOn, containerErrors, validateContainerStep]
  cases h1 : (validate_image_registry (c.image.getD "") (c.name.getD "unknown")).1 <;>
  cases h2 : (validate_image_tag (c.image.getD "") (c.name.getD "unknown")).1 <;>
  cases h3 : (validate_resources c (c.name.getD "unknown")).1 <;>
  cases h4 : (validate_security_context c (c.name.getD "unknown")).1 <;>
  simp [h1, h2, h3, h4]

/-- The whole error list is empty exactly when no rule fails on any
container. -/
theorem collectErrors_eq_nil_iff (l : List Container) :
    collectErrors l = [] ↔ ∀ c ∈ l, ∀ r : Rule, ruleFailsOn r c = false := by
  induction l with
  | nil => simp [collectErrors]
  | cons c cs ih =>
    simp [collectErrors, List.append_eq_nil, containerErrors_eq_nil_iff, ih]

/-- `validate` outside the exempt namespace allows exactly when the error
list is empty. -/
theorem validate_allowed_eq (req : AdmissionRequest)
    (h : req.pod_namespace ≠ "image-validator-demo") :
    (validate req).allowed = (validation_errors req).isEmpty := by
  unfold validate
  rw [if_neg h]
  cases hc : (validation_errors req).isEmpty <;> simp [hc]

theorem validation_errors_eq_collect (req : AdmissionRequest) :
    validation_errors req = collectErrors (req.containers ++ req.initContainers) := by
  rw [validation_errors, foldl_step_eq, List.nil_append]

/-- Splitting the literal right after the standard container prefix. -/
theorem shape_helper (n mid t : String) :
    ("Container \x27" ++ n ++ ("\x27: " ++ mid)) ++ t =
      "Container \x27" ++ n ++ "\x27: " ++ (mid ++ t) := by
  simp only [String.append_assoc]

/-- Any failure message of the registry rule starts with the standard
container prefix. -/
theorem registry_msg_form (image n : String)
    (h : (validate_image_registry image n).1 = false) :
    ∃ rest, (validate_image_registry image n).2 =
      "Container \x27" ++ n ++ "\x27: " ++ rest := by
  simp only [validate_image_registry] at h ⊢
  split_ifs at h ⊢ <;>
  first
    | (simp at h
       done)
    | (apply Exists.intro
       first
         | rw [show ("\x27: Image is required" : String) =
             "\x27: " ++ "Image is required" from rfl]
         | rw [show ("\x27: Registry \x27" : String) =
             "\x27: " ++ "Registry \x27" from rfl]
       simp only [String.append_assoc]
       rfl)

/-- Any failure message of the tag rule starts with the standard container
prefix. -/
theorem tag_msg_form (image n : String)
    (h : (validate_image_tag image n).1 = true) :
    ∃ rest, (validate_image_tag image n).2 =
      "Container \x27" ++ n ++ "\x27: " ++ rest := by
  simp only [validate_image_tag] at h ⊢
  split_ifs at h ⊢ <;>
  first
    | (simp at h
       done)
    | (apply Exists.intro
       rw [show ("\x27: Tag \x27" : String) = "\x27: " ++ "Tag \x27" from rfl]
       simp only [String.append_assoc]
       rfl)

/-- Any failure message of the resources rule starts with the standard
container prefix. -/
theorem resources_msg_form (c : Container) (n : String)
    (h : (validate_resources c n).1 = false) :
    ∃ rest, (validate_resources c n).2 =
      "Container \x27" ++ n ++ "\x27: " ++ rest := by
  simp only [validate_resources] at h ⊢
  split_ifs at h ⊢ <;>
  first
    | (simp at h
       done)
    | (apply Exists.intro
       rw [show ("\x27: Missing " : String) = "\x27: " ++ "Missing " from rfl]
       simp only [String.append_assoc]
       rfl)

/-- Any failure message of the security-context rule starts with the
standard container prefix. -/
theorem security_msg_form (c : Container) (n : String)
    (h : (validate_security_context c n).1 = false) :
    ∃ rest, (validate_security_context c n).2 =
      "Container \x27" ++ n ++ "\x27: " ++ rest := by
  simp only [validate_security_context] at h ⊢
  split_ifs at h ⊢ <;>
  first
    | (simp at h
       done)
    | (apply Exists.intro
       rw [show ("\x27: Required " : String) = "\x27: " ++ "Required " from rfl]
       simp only [String.append_assoc]
       rfl)

/-- Elements of `if b then l else l ++ [x]` satisfy `P` when the elements
of `l` do and `x` does whenever `b` is false. -/
theorem mem_if_append (P : String → Prop) {l : List String} {b : Bool} {x : String}
    (hl : ∀ m ∈ l, P m) (hx : b = false → P x) :
    ∀ m ∈ (if b then l else l ++ [x]), P m := by
  cases b
  · intro m hm
    simp only [Bool.false_eq_true, if_false, List.mem_append, List.mem_singleton] at hm
    rcases hm with hm | rfl
    · exact hl m hm
    · exact hx rfl
  · intro m hm
    simp only [if_true] at hm
    exact hl m hm

/-- Elements of `if b then l ++ [x] else l` satisfy `P` when the elements
of `l` do and `x` does whenever `b` is true. -/
theorem mem_if_append_pos (P : String → Prop) {l : List String} {b : Bool} {x : String}
    (hl : ∀ m ∈ l, P m) (hx : b = true → P x) :
    ∀ m ∈ (if b then l ++ [x] else l), P m := by
  cases b
  · intro m hm
    simp only [Bool.false_eq_true, if_false] at hm
    exact hl m hm
  · intro m hm
    simp only [if_true, List.mem_append, List.mem_singleton] at hm
    rcases hm with hm | rfl
    · exact hl m hm
    · exact hx rfl

/-- Every message a container contributes has the standard container
prefix. -/
theorem mem_containerErrors_form (c : Container) (m : String)
    (hm : m ∈ containerErrors c) :
    ∃ rest, m = "Container \x27" ++ c.name.getD "unknown" ++ "\x27: " ++ rest := by
  simp only [containerErrors, validateContainerStep] at hm
  refine mem_if_append (fun m => ∃ rest, m = "Container \x27" ++ c.name.getD "unknown" ++ "\x27: " ++ rest) ?_ (fun hb => security_msg_form _ _ hb) m hm
  intro m hm
  refine mem_if_append (fun m => ∃ rest, m = "Container \x27" ++ c.name.getD "unknown" ++ "\x27: " ++ rest) ?_ (fun hb => resources_msg_form _ _ hb) m hm
  intro m hm
  refine mem_if_append_pos (fun m => ∃ rest, m = "Container \x27" ++ c.name.getD "unknown" ++ "\x27: " ++ rest) ?_ (fun hb => tag_msg_form _ _ hb) m hm
  intro m hm
  refine mem_if_append (fun m => ∃ rest, m = "Container \x27" ++ c.name.getD "unknown" ++ "\x27: " ++ rest) ?_ (fun hb => registry_msg_form _ _ hb) m hm
  intro m hm
  exact (nomatch hm)

/-- Every recorded message comes from some container of the list. -/
theorem mem_collectErrors {m : String} :
    ∀ {l : List Container}, m ∈ collectErrors l → ∃ c ∈ l, m ∈ containerErrors c := by
  intro l
  induction l with
  | nil =>
    intro hm
    simp [collectErrors] at hm
  | cons c cs ih =>
    intro hm
    simp only [collectErrors, List.mem_append] at hm
    rcases hm with hm | hm
    · exact ⟨c, List.mem_cons_self c cs, hm⟩
    · obtain ⟨c2, hc2, hm2⟩ := ih hm
      exact ⟨c2, List.mem_cons_of_mem c hc2, hm2⟩

/-- The pass/fail bit of the security-context rule as a boolean formula of
the three (defaulted) flags. -/
theorem security_fst_eq (c : Container) (n : String) :
    (validate_security_context c n).1 =
      ((c.securityContext.getD ⟨none, none, none⟩).runAsNonRoot.getD false &&
       !((c.securityContext.getD ⟨none, none, none⟩).allowPrivilegeEscalation.getD true) &&
       (c.securityContext.getD ⟨none, none, none⟩).readOnlyRootFilesystem.getD false) := by
  simp only [validate_security_context]
  rcases c.securityContext.getD ⟨none, none, none⟩ with ⟨r, a, f⟩
  cases hr : r.getD false <;> cases ha : a.getD true <;> cases hf : f.getD false <;>
    simp [hr, ha, hf]

/-- The (defaulted) `resources.limits` mapping a container is judged by. -/
def limitsOf (c : Container) : ResourceMap :=
  (c.resources.getD ⟨none, none⟩).limits.getD ⟨none, none⟩

/-- The (defaulted) `resources.requests` mapping a container is judged by. -/
def requestsOf (c : Container) : ResourceMap :=
  (c.resources.getD ⟨none, none⟩).requests.getD ⟨none, none⟩

end ImageValidator

/-! ## Claim theorems -/

/-- A non-exempt request whose single container sets none of the required
fields (fails several rules). -/
def reqAllBad : ImageValidator.AdmissionRequest :=
  ⟨"uid-1", "default", "pod-a", [⟨none, none, none, none⟩], []⟩

/-- C1: for every structurally well-formed AdmissionRequest whose namespace
is not the exempt namespace, the decision has `allowed = false` iff at
least one validation rule fails for at least one container (regular or
init); with zero rule failures recorded, `allowed = true`. -/
theorem allowed_iff_rule_failure (req : ImageValidator.AdmissionRequest)
    (h : req.pod_namespace ≠ "image-validator-demo") :
    ((ImageValidator.validate req).allowed = false ↔
      ∃ c ∈ req.containers ++ req.initContainers, ∃ r : ImageValidator.Rule,
        ImageValidator.ruleFailsOn r c = true) ∧
    ((∀ c ∈ req.containers ++ req.initContainers, ∀ r : ImageValidator.Rule,
        ImageValidator.ruleFailsOn r c = false) →
      (ImageValidator.validate req).allowed = true) := by
  have hiff :=
    ImageValidator.collectErrors_eq_nil_iff (req.containers ++ req.initContainers)
  have hA := ImageValidator.validate_allowed_eq req h
  rw [ImageValidator.validation_errors_eq_collect] at hA
  constructor
  · rw [hA, Bool.eq_false_iff, Ne, List.isEmpty_iff, hiff]
    constructor
    · intro hno
      by_contra hex
      push_neg at hex
      exact hno fun c hc r => by
        have := hex c hc r
        cases hrc : ImageValidator.ruleFailsOn r c
        · rfl
        · exact absurd hrc this
    · rintro ⟨c, hc, r, hr⟩ hall
      rw [hall c hc r] at hr
      cases hr
  · intro hall
    rw [hA, hiff.mpr hall]
    rfl

/-- Witness for C1, at a concrete non-exempt request. -/
theorem allowed_iff_rule_failure_witness :
    reqAllBad.pod_namespace ≠ "image-validator-demo" ∧
    (((ImageValidator.validate reqAllBad).allowed = false ↔
        ∃ c ∈ reqAllBad.containers ++ reqAllBad.initContainers,
          ∃ r : ImageValidator.Rule, ImageValidator.ruleFailsOn r c = true) ∧
      ((∀ c ∈ reqAllBad.containers ++ reqAllBad.initContainers,
          ∀ r : ImageValidator.Rule, ImageValidator.ruleFailsOn r c = false) →
        (ImageValidator.validate reqAllBad).allowed = true)) :=
  ⟨by decide, allowed_iff_rule_failure reqAllBad (by decide)⟩

/-- C2: every request whose namespace equals the configured exempt namespace
is allowed with the fixed skip message, whatever its containers are; this
holds for image-validator.py (exempt namespace `image-validator-demo`) and
for validate-pod.py (exempt namespace `webhook-demo`). -/
theorem exempt_namespace_short_circuit :
    (∀ req : ImageValidator.AdmissionRequest,
        req.pod_namespace = "image-validator-demo" →
        ImageValidator.validate req =
          ⟨req.uid, true, "Skipped validation in image-validator-demo namespace"⟩) ∧
    (∀ req : PodValidator.AdmissionRequest,
        req.pod_namespace = "webhook-demo" →
        PodValidator.validate req =
          Except.ok ⟨req.uid, true, "Skipped validation in webhook-demo namespace"⟩) := by
  constructor
  · intro req h
    unfold ImageValidator.validate
    rw [if_pos h]
  · intro req h
    unfold PodValidator.validate
    rw [if_pos h]
    rfl

/-- An exempt-namespace request for the image validator whose container
violates every rule. -/
def reqExemptIV : ImageValidator.AdmissionRequest :=
  ⟨"uid-2", "image-validator-demo", "pod-b", [⟨none, none, none, none⟩], []⟩

/-- An exempt-namespace request for the pod validator whose container does
not set runAsNonRoot. -/
def reqExemptPV : PodValidator.AdmissionRequest :=
  ⟨"uid-3", "webhook-demo", "pod-c", [⟨none, none, none, none⟩]⟩

/-- Witness for C2: both validators skip concrete rule-violating requests
that sit in their exempt namespace. -/
theorem exempt_namespace_short_circuit_witness :
    ImageValidator.validate reqExemptIV =
      ⟨reqExemptIV.uid, true, "Skipped validation in image-validator-demo namespace"⟩ ∧
    PodValidator.validate reqExemptPV =
      Except.ok ⟨reqExemptPV.uid, true, "Skipped validation in webhook-demo namespace"⟩ :=
  ⟨exempt_namespace_short_circuit.1 reqExemptIV rfl,
   exempt_namespace_short_circuit.2 reqExemptPV rfl⟩

/-- A container that passes every rule except the tag-blocklist rule
(image `nginx:latest`, full resources, hardened security context). -/
def tagOnlyFail (nm : String) : Container :=
  ⟨some nm, some "nginx:latest",
   some ⟨some ⟨some "100m", some "128Mi"⟩, some ⟨some "100m", some "128Mi"⟩⟩,
   some ⟨some true, some false, some true⟩⟩

/-- A non-exempt request with one failing regular container `c1` and one
failing init container `i1`. -/
def reqOrder : ImageValidator.AdmissionRequest :=
  ⟨"uid-4", "default", "pod-d", [tagOnlyFail "c1"], [tagOnlyFail "i1"]⟩

/-- Counterexample to C3 as stated: the aggregator walks
`containers + initContainers` (regular containers first), not
`initContainers` followed by regular containers.  With the regular
container `c1` and the init container `i1` each failing exactly the tag
rule, the recorded order is the `c1` message first; the init-first order
the claim prescribes is refuted. -/
theorem container_order_counterexample :
    ImageValidator.validation_errors reqOrder =
      ["Container \x27c1\x27: Tag \x27latest\x27 is blocked. Use specific version tags.",
       "Container \x27i1\x27: Tag \x27latest\x27 is blocked. Use specific version tags."] ∧
    ImageValidator.validation_errors reqOrder ≠
      ["Container \x27i1\x27: Tag \x27latest\x27 is blocked. Use specific version tags.",
       "Container \x27c1\x27: Tag \x27latest\x27 is blocked. Use specific version tags."] := by
  constructor
  · decide
  · decide

/-- C3 (amended): for every non-exempt well-formed AdmissionRequest, the
aggregator runs every rule on every container, taking the containers in
the order regular containers followed by initContainers (the source
computes `all_containers = containers + init_containers`), accumulating
each failure message of the form `Container '<name>': <message>` without
stopping at the first failure, and the deny message joins all failures in
that encounter order. -/
theorem aggregator_regular_then_init (req : ImageValidator.AdmissionRequest)
    (h : req.pod_namespace ≠ "image-validator-demo") :
    ImageValidator.validation_errors req =
      ImageValidator.collectErrors (req.containers ++ req.initContainers) ∧
    (∀ m ∈ ImageValidator.validation_errors req,
       ∃ c ∈ req.containers ++ req.initContainers, ∃ rest : String,
         m = "Container \x27" ++ c.name.getD "unknown" ++ "\x27: " ++ rest) ∧
    (ImageValidator.validation_errors req ≠ [] →
       ImageValidator.validate req =
         ⟨req.uid, false,
          String.intercalate " | " (ImageValidator.validation_errors req)⟩) := by
  refine ⟨ImageValidator.validation_errors_eq_collect req, ?_, ?_⟩
  · intro m hm
    rw [ImageValidator.validation_errors_eq_collect] at hm
    obtain ⟨c, hc, hmc⟩ := ImageValidator.mem_collectErrors hm
    obtain ⟨rest, hrest⟩ := ImageValidator.mem_containerErrors_form c m hmc
    exact ⟨c, hc, rest, hrest⟩
  · intro hne
    have hfalse : (ImageValidator.validation_errors req).isEmpty = false := by
      cases hc : (ImageValidator.validation_errors req).isEmpty
      · rfl
      · exact absurd (List.isEmpty_iff.mp hc) hne
    unfold ImageValidator.validate
    rw [if_neg h]
    simp [hfalse]

/-- Witness for C3's amended claim, at the concrete two-container request. -/
theorem aggregator_regular_then_init_witness :
    reqOrder.pod_namespace ≠ "image-validator-demo" ∧
    (ImageValidator.validation_errors reqOrder =
       ImageValidator.collectErrors (reqOrder.containers ++ reqOrder.initContainers) ∧
     (∀ m ∈ ImageValidator.validation_errors reqOrder,
        ∃ c ∈ reqOrder.containers ++ reqOrder.initContainers, ∃ rest : String,
          m = "Container \x27" ++ c.name.getD "unknown" ++ "\x27: " ++ rest) ∧
     (ImageValidator.validation_errors reqOrder ≠ [] →
        ImageValidator.validate reqOrder =
          ⟨reqOrder.uid, false,
           String.intercalate " | " (ImageValidator.validation_errors reqOrder)⟩)) :=
  ⟨by decide, aggregator_regular_then_init reqOrder (by decide)⟩

/-- C4: a watched event carrying `metadata.name`, `spec.cronSpec` and
`spec.message` triggers exactly one create call when its type is `ADDED` —
a CronJob named `<name>-job` with restart policy `OnFailure` whose
container argument vector embeds `echo <message>` — and zero create calls
when its type is `MODIFIED` or `DELETED`. -/
theorem added_event_single_create (event : CrontabController.WatchEvent)
    (name cronSpec message : String)
    (hobj : event.object = ⟨some name, some cronSpec, some message⟩) :
    (event.type = "ADDED" →
       CrontabController.processEvent event =
         Except.ok [⟨"default",
           ⟨name ++ "-job", cronSpec, "OnFailure",
            [⟨"echo", "busybox", ["/bin/sh", "-c", "echo " ++ message]⟩]⟩⟩]) ∧
    (event.type = "MODIFIED" ∨ event.type = "DELETED" →
       CrontabController.processEvent event = Except.ok []) := by
  constructor
  · intro htype
    simp [CrontabController.processEvent, CrontabController.create_cronjob, hobj,
      htype, keyGet, Bind.bind, Except.bind, pure, Except.pure]
  · rintro (htype | htype) <;>
      simp [CrontabController.processEvent, hobj, htype, keyGet, Bind.bind, Except.bind,
        pure, Except.pure]

/-- The ADDED event of the spec's reconciliation scenario. -/
def demoEvent : CrontabController.WatchEvent :=
  ⟨"ADDED", ⟨some "demo", some "*/1 * * * *", some "hi"⟩⟩

/-- A MODIFIED event for the same resource. -/
def demoModifiedEvent : CrontabController.WatchEvent :=
  ⟨"MODIFIED", ⟨some "demo", some "*/1 * * * *", some "hi"⟩⟩

/-- Witness for C4: the `demo`/`hi` ADDED event yields exactly one create
call for `demo-job`, restart-on-failure, with `echo hi` in the argument
vector; the MODIFIED twin yields zero create calls. -/
theorem added_event_single_create_witness :
    (demoEvent.type = "ADDED" ∧
     CrontabController.processEvent demoEvent =
       Except.ok [⟨"default",
         ⟨"demo" ++ "-job", "*/1 * * * *", "OnFailure",
          [⟨"echo", "busybox", ["/bin/sh", "-c", "echo " ++ "hi"]⟩]⟩⟩]) ∧
    (demoModifiedEvent.type = "MODIFIED" ∧
     CrontabController.processEvent demoModifiedEvent = Except.ok []) :=
  ⟨⟨rfl, (added_event_single_create demoEvent "demo" "*/1 * * * *" "hi" rfl).1 rfl⟩,
   ⟨rfl, (added_event_single_create demoModifiedEvent "demo" "*/1 * * * *" "hi" rfl).2
      (Or.inl rfl)⟩⟩

/-- An event whose object lacks `spec.message`, of non-`ADDED` type. -/
def badEvent : CrontabController.WatchEvent :=
  ⟨"DELETED", ⟨some "demo", some "*/1 * * * *", none⟩⟩

/-- C10: the loop body reads `metadata.name`, `spec.cronSpec` and
`spec.message` before inspecting the event type, so any event missing one
of them — whatever its type, including MODIFIED/DELETED — raises an
uncaught `KeyError`, and the watch loop terminates there without issuing
any create call for that or any later event. -/
theorem missing_field_terminates_loop (e : CrontabController.WatchEvent)
    (rest : List CrontabController.WatchEvent)
    (h : e.object.name = none ∨ e.object.cronSpec = none ∨
         e.object.message = none) :
    (∃ key, CrontabController.processEvent e = Except.error key ∧
       CrontabController.runLoop (e :: rest) = ([], some key)) := by
  have herr : ∃ key, CrontabController.processEvent e = Except.error key := by
    rcases e with ⟨t, ⟨n, cs, msg⟩⟩
    rcases h with h | h | h <;> subst h
    · exact ⟨"\x27name\x27", rfl⟩
    · cases n with
      | none => exact ⟨"\x27name\x27", rfl⟩
      | some a => exact ⟨"\x27cronSpec\x27", rfl⟩
    · cases n with
      | none => exact ⟨"\x27name\x27", rfl⟩
      | some a =>
        cases cs with
        | none => exact ⟨"\x27cronSpec\x27", rfl⟩
        | some b => exact ⟨"\x27message\x27", rfl⟩
  obtain ⟨key, hkey⟩ := herr
  refine ⟨key, hkey, ?_⟩
  simp [CrontabController.runLoop, hkey]

/-- Witness for C10: a DELETED event without `spec.message` kills the loop
even though DELETED events trigger no action, and the later ADDED event is
never processed. -/
theorem missing_field_terminates_loop_witness :
    badEvent.object.message = none ∧
    (∃ key, CrontabController.processEvent badEvent = Except.error key ∧
       CrontabController.runLoop [badEvent, demoEvent] = ([], some key)) :=
  ⟨rfl, missing_field_terminates_loop badEvent [demoEvent] (Or.inr (Or.inr rfl))⟩

/-- C5: the security-context rule passes only when `runAsNonRoot == true`,
`allowPrivilegeEscalation == false` and `readOnlyRootFilesystem == true`;
an absent field counts as the unsafe value, so an unset
`allowPrivilegeEscalation` fails the rule and an unset `runAsNonRoot`
fails the rule. -/
theorem security_context_fail_closed (c : Container) (container_name : String) :
    ((ImageValidator.validate_security_context c container_name).1 = true ↔
      ((c.securityContext.getD ⟨none, none, none⟩).runAsNonRoot = some true ∧
       (c.securityContext.getD ⟨none, none, none⟩).allowPrivilegeEscalation = some false ∧
       (c.securityContext.getD ⟨none, none, none⟩).readOnlyRootFilesystem = some true)) ∧
    ((c.securityContext.getD ⟨none, none, none⟩).allowPrivilegeEscalation = none →
      (ImageValidator.validate_security_context c container_name).1 = false) ∧
    ((c.securityContext.getD ⟨none, none, none⟩).runAsNonRoot = none →
      (ImageValidator.validate_security_context c container_name).1 = false) := by
  have hf := ImageValidator.security_fst_eq c container_name
  rcases hsc : c.securityContext.getD ⟨none, none, none⟩ with ⟨r, a, f⟩
  rw [hsc] at hf
  rw [hf]
  rcases r with _ | r <;> rcases a with _ | a <;> rcases f with _ | f <;> simp [and_assoc]

/-- A container whose security context leaves `allowPrivilegeEscalation`
unset. -/
def cNoAPE : Container :=
  ⟨some "w1", some "docker.io/app:1.0", none, some ⟨some true, none, some true⟩⟩

/-- A container whose security context leaves `runAsNonRoot` unset. -/
def cNoRANR : Container :=
  ⟨some "w2", some "docker.io/app:1.0", none, some ⟨none, some false, some true⟩⟩

/-- Witness for C5: both unset-field containers fail the rule. -/
theorem security_context_fail_closed_witness :
    (cNoAPE.securityContext.getD ⟨none, none, none⟩).allowPrivilegeEscalation = none ∧
    (ImageValidator.validate_security_context cNoAPE "w1").1 = false ∧
    (cNoRANR.securityContext.getD ⟨none, none, none⟩).runAsNonRoot = none ∧
    (ImageValidator.validate_security_context cNoRANR "w2").1 = false :=
  ⟨rfl, (security_context_fail_closed cNoAPE "w1").2.1 rfl, rfl,
   (security_context_fail_closed cNoRANR "w2").2.2 rfl⟩

/-- C6: every non-empty image string without a `:` separator resolves to
tag `latest`, which is in the blocked-tag set, so the tag rule fails on
every such image. -/
theorem default_tag_latest_denied (image container_name : String)
    (h1 : image ≠ "") (h2 : pyContains image ':' = false) :
    "latest" ∈ ImageValidator.BLOCKED_TAGS ∧
    ImageValidator.validate_image_tag image container_name =
      (true, "Container \x27" ++ container_name ++ "\x27: Tag \x27" ++ "latest" ++
        "\x27 is blocked. Use specific version tags.") := by
  refine ⟨by decide, ?_⟩
  simp [ImageValidator.validate_image_tag, ImageValidator.BLOCKED_TAGS, h1, h2]

/-- Witness for C6: the image `myapp` is denied by the tag rule. -/
theorem default_tag_latest_denied_witness :
    ("myapp" : String) ≠ "" ∧ pyContains "myapp" ':' = false ∧
    ("latest" ∈ ImageValidator.BLOCKED_TAGS ∧
     ImageValidator.validate_image_tag "myapp" "app" =
       (true, "Container \x27" ++ "app" ++ "\x27: Tag \x27" ++ "latest" ++
         "\x27 is blocked. Use specific version tags.")) :=
  ⟨by decide, rfl, default_tag_latest_denied "myapp" "app" (by decide) rfl⟩

/-- Counterexample to C7 as stated.  The image `evil.io:1.0` has no `/`,
so its first `/`-separated segment is the whole string: it contains `.`
(and `:`) and is not an approved registry, yet the rule passes it, because
the code only looks for a registry when the image has more than one
`/`-separated part.  And the empty image has no detectable registry
segment yet fails the rule (`Image is required`), refuting the claim that
every such image passes. -/
theorem registry_detection_counterexample :
    (pySplit "evil.io:1.0" '/').headD "" = "evil.io:1.0" ∧
    pyContains "evil.io:1.0" '.' = true ∧
    ImageValidator.APPROVED_REGISTRIES.contains "evil.io:1.0" = false ∧
    (ImageValidator.validate_image_registry "evil.io:1.0" "app").1 = true ∧
    ((pySplit "" '/').headD "" = "" ∧ pyContains "" '.' = false ∧
      pyContains "" ':' = false ∧
      (ImageValidator.validate_image_registry "" "app").1 = false) := by
  decide

/-- C7 (amended): the registry rule detects a registry only when the image
has at least two `/`-separated parts and the first contains `.` or `:`;
in that case it fails iff the first part is not in the approved set, with
a message naming the registry and the full allow-set.  A non-empty image
without a detected registry passes, and the empty image fails with
`Image is required`. -/
theorem registry_allowlist_amended (image container_name registry : String)
    (restParts : List String)
    (hsplit : pySplit image '/' = registry :: restParts) :
    (restParts ≠ [] →
     (pyContains registry '.' || pyContains registry ':') = true →
       ((ImageValidator.validate_image_registry image container_name).1 = false ↔
          ImageValidator.APPROVED_REGISTRIES.contains registry = false) ∧
       (ImageValidator.APPROVED_REGISTRIES.contains registry = false →
          (ImageValidator.validate_image_registry image container_name).2 =
            "Container \x27" ++ container_name ++ "\x27: Registry \x27" ++ registry ++
              "\x27 not in approved list: " ++
              pyListRepr ImageValidator.APPROVED_REGISTRIES)) ∧
    (image ≠ "" →
     (restParts = [] ∨ (pyContains registry '.' || pyContains registry ':') = false) →
       ImageValidator.validate_image_registry image container_name = (true, "")) ∧
    (image = "" →
       ImageValidator.validate_image_registry image container_name =
         (false, "Container \x27" ++ container_name ++ "\x27: Image is required")) := by
  refine ⟨?_, ?_, ?_⟩
  · intro hne hdet
    have himg : image ≠ "" := by
      intro he
      subst he
      rw [show pySplit "" '/' = [""] from rfl] at hsplit
      cases hsplit
      exact hne rfl
    have hlen : (registry :: restParts).length > 1 := by
      cases restParts with
      | nil => exact absurd rfl hne
      | cons a l => simp [List.length_cons]
    have hpos : 0 < restParts.length := List.length_pos.mpr hne
    constructor
    · by_cases hm : registry ∈ ImageValidator.APPROVED_REGISTRIES
      · have hc : ImageValidator.APPROVED_REGISTRIES.contains registry = true :=
          List.elem_iff.mpr hm
        simp [ImageValidator.validate_image_registry, himg, hsplit, hlen, hdet, hm,
          hc, hpos]
      · have hc : ImageValidator.APPROVED_REGISTRIES.contains registry = false := by
          cases hx : ImageValidator.APPROVED_REGISTRIES.contains registry
          · rfl
          · exact absurd (List.elem_iff.mp hx) hm
        simp [ImageValidator.validate_image_registry, himg, hsplit, hlen, hdet, hm,
          hc, hpos]
    · intro hc
      have hm : registry ∉ ImageValidator.APPROVED_REGISTRIES := fun hx => by
        have helem := List.elem_iff.mpr hx
        rw [show ImageValidator.APPROVED_REGISTRIES.elem registry =
          ImageValidator.APPROVED_REGISTRIES.contains registry from rfl, hc] at helem
        exact Bool.noConfusion helem
      simp [ImageValidator.validate_image_registry, himg, hsplit, hlen, hdet, hm,
        hpos]
  · intro himg hcase
    rcases hcase with rfl | hdet
    · simp [ImageValidator.validate_image_registry, himg, hsplit]
    · cases restParts with
      | nil => simp [ImageValidator.validate_image_registry, himg, hsplit]
      | cons a l =>
        have hlen : (registry :: a :: l).length > 1 := by simp [List.length_cons]
        simp [ImageValidator.validate_image_registry, himg, hsplit, hlen, hdet]
  · intro himg
    subst himg
    rfl

/-- Witness for C7's amended claim: `evil.io/malware:1.0` fails naming
`evil.io`; `docker.io/library/nginx:1.21` passes the registry rule. -/
theorem registry_allowlist_amended_witness :
    pySplit "evil.io/malware:1.0" '/' = "evil.io" :: ["malware:1.0"] ∧
    (["malware:1.0"] : List String) ≠ [] ∧
    (pyContains "evil.io" '.' || pyContains "evil.io" ':') = true ∧
    (((ImageValidator.validate_image_registry "evil.io/malware:1.0" "app").1 = false ↔
        ImageValidator.APPROVED_REGISTRIES.contains "evil.io" = false) ∧
      (ImageValidator.APPROVED_REGISTRIES.contains "evil.io" = false →
        (ImageValidator.validate_image_registry "evil.io/malware:1.0" "app").2 =
          "Container \x27" ++ "app" ++ "\x27: Registry \x27" ++ "evil.io" ++
            "\x27 not in approved list: " ++
            pyListRepr ImageValidator.APPROVED_REGISTRIES)) ∧
    ((ImageValidator.validate_image_registry "docker.io/library/nginx:1.21" "app").1 = false ↔
      ImageValidator.APPROVED_REGISTRIES.contains "docker.io" = false) :=
  ⟨rfl, by decide, rfl,
   (registry_allowlist_amended "evil.io/malware:1.0" "app" "evil.io" ["malware:1.0"]
      rfl).1 (by decide) rfl,
   ((registry_allowlist_amended "docker.io/library/nginx:1.21" "app" "docker.io"
      ["library", "nginx:1.21"] rfl).1 (by decide) rfl).1⟩

/-- C8: the resource rule fails iff at least one of `limits.cpu`,
`limits.memory`, `requests.cpu`, `requests.memory` is absent (or falsy),
its message enumerates every missing field in order, and a container
specifying only `limits.cpu` reports exactly the three entries
`memory limits`, `CPU requests`, `memory requests`. -/
theorem resource_limits_enumerates_missing (c : Container) (container_name : String) :
    ((ImageValidator.validate_resources c container_name).1 = false ↔
       (pyTruthy (ImageValidator.limitsOf c).cpu = false ∨
        pyTruthy (ImageValidator.limitsOf c).memory = false ∨
        pyTruthy (ImageValidator.requestsOf c).cpu = false ∨
        pyTruthy (ImageValidator.requestsOf c).memory = false)) ∧
    ((ImageValidator.validate_resources c container_name).1 = false →
       (ImageValidator.validate_resources c container_name).2 =
         "Container \x27" ++ container_name ++ "\x27: Missing " ++
           String.intercalate ", "
             ((if pyTruthy (ImageValidator.limitsOf c).cpu then [] else ["CPU limits"]) ++
              (if pyTruthy (ImageValidator.limitsOf c).memory then [] else ["memory limits"]) ++
              (if pyTruthy (ImageValidator.requestsOf c).cpu then [] else ["CPU requests"]) ++
              (if pyTruthy (ImageValidator.requestsOf c).memory then []
               else ["memory requests"]))) ∧
    (pyTruthy (ImageValidator.limitsOf c).cpu = true →
     pyTruthy (ImageValidator.limitsOf c).memory = false →
     pyTruthy (ImageValidator.requestsOf c).cpu = false →
     pyTruthy (ImageValidator.requestsOf c).memory = false →
       (ImageValidator.validate_resources c container_name).2 =
         "Container \x27" ++ container_name ++ "\x27: Missing " ++
           String.intercalate ", " ["memory limits", "CPU requests", "memory requests"]) := by
  cases h1 : pyTruthy (ImageValidator.limitsOf c).cpu <;>
  cases h2 : pyTruthy (ImageValidator.limitsOf c).memory <;>
  cases h3 : pyTruthy (ImageValidator.requestsOf c).cpu <;>
  cases h4 : pyTruthy (ImageValidator.requestsOf c).memory <;>
    simp [ImageValidator.validate_resources, ImageValidator.limitsOf,
      ImageValidator.requestsOf, h1, h2, h3, h4] at *

/-- A container whose resources specify only `limits.cpu`. -/
def cOnlyCpuLimit : Container :=
  ⟨some "w3", some "docker.io/app:1.0",
   some ⟨some ⟨some "100m", none⟩, none⟩,
   some ⟨some true, some false, some true⟩⟩

/-- Witness for C8: the `limits.cpu`-only container reports exactly the
three missing entries. -/
theorem resource_limits_enumerates_missing_witness :
    pyTruthy (ImageValidator.limitsOf cOnlyCpuLimit).cpu = true ∧
    pyTruthy (ImageValidator.limitsOf cOnlyCpuLimit).memory = false ∧
    pyTruthy (ImageValidator.requestsOf cOnlyCpuLimit).cpu = false ∧
    pyTruthy (ImageValidator.requestsOf cOnlyCpuLimit).memory = false ∧
    (ImageValidator.validate_resources cOnlyCpuLimit "w3").2 =
      "Container \x27" ++ "w3" ++ "\x27: Missing " ++
        String.intercalate ", " ["memory limits", "CPU requests", "memory requests"] :=
  ⟨rfl, rfl, rfl, rfl,
   (resource_limits_enumerates_missing cOnlyCpuLimit "w3").2.2 rfl rfl rfl rfl⟩

/-- C9: an inbound body that is empty or lacks the `request` field, and any
request whose processing raises an internal decode error, yields a deny
decision (never a transport-level failure — the handler is total), with
the uid recovered best-effort and defaulting to the empty string when
unrecoverable. -/
theorem decode_failure_denies (body : Option ImageValidator.RawBody)
    (h : body = none ∨
         (∃ b, body = some b ∧ b.request = none) ∨
         (∃ b r e, body = some b ∧ b.request = some r ∧
            ImageValidator.validateCore r = Except.error e)) :
    (ImageValidator.validateHandler body).allowed = false ∧
    (ImageValidator.validateHandler body).uid = ImageValidator.bestEffortUid body ∧
    ((body = none ∨ (∃ b, body = some b ∧ b.request = none) ∨
      (∃ b r, body = some b ∧ b.request = some r ∧ r.uid = none)) →
      (ImageValidator.validateHandler body).uid = "") := by
  rcases h with rfl | ⟨b, rfl, hreq⟩ | ⟨b, r, e, rfl, hreq, herr⟩
  · exact ⟨rfl, rfl, fun _ => rfl⟩
  · refine ⟨?_, ?_, ?_⟩ <;>
      simp [ImageValidator.validateHandler, hreq, ImageValidator.bestEffortUid]
  · refine ⟨?_, ?_, ?_⟩
    · simp [ImageValidator.validateHandler, hreq, herr]
    · simp [ImageValidator.validateHandler, hreq, herr]
    · rintro (hnone | ⟨b2, hb2, hreq2⟩ | ⟨b2, r2, hb2, hreq2, huid⟩)
      · cases hnone
      · injection hb2 with hb2e
        subst hb2e
        rw [hreq] at hreq2
        cases hreq2
      · injection hb2 with hb2e
        subst hb2e
        rw [hreq] at hreq2
        injection hreq2 with hre
        subst hre
        simp [ImageValidator.validateHandler, hreq, herr,
          ImageValidator.bestEffortUid, huid]

/-- A decoded body whose `request` lacks `uid` (its `object` carries
neither metadata nor spec). -/
def badBody : ImageValidator.RawBody := ⟨some ⟨none, some ⟨none, none⟩⟩⟩

/-- Witness for C9: the uid-less body is denied with empty uid. -/
theorem decode_failure_denies_witness :
    ImageValidator.validateCore ⟨none, some ⟨none, none⟩⟩ =
      Except.error "\x27uid\x27" ∧
    (ImageValidator.validateHandler (some badBody)).allowed = false ∧
    (ImageValidator.validateHandler (some badBody)).uid = "" :=
  ⟨rfl,
   (decode_failure_denies (some badBody) (Or.inr (Or.inr
      ⟨badBody, ⟨none, some ⟨none, none⟩⟩, "\x27uid\x27", rfl, rfl, rfl⟩))).1,
   (decode_failure_denies (some badBody) (Or.inr (Or.inr
      ⟨badBody, ⟨none, some ⟨none, none⟩⟩, "\x27uid\x27", rfl, rfl, rfl⟩))).2.2
     (Or.inr (Or.inr ⟨badBody, ⟨none, some ⟨none, none⟩⟩, rfl, rfl, rfl⟩))⟩
